import Mathlib

/-!
Verification of the STOMP client session core against its specification.

The definitions below are a shallow embedding of `src/session.rs`.
Machine integers are modelled as `Nat` with explicit wrapping or saturation
where the Rust code wraps or saturates.  The session is parametric in the
type `R` of receipt handlers (Rust `Box<FrameHandler>`), so that handler
identity is observable; message handlers (`Box<MessageHandler>`) are
modelled as pure functions `Frame -> AckOrNack`, and the mutating frame
hooks (`Box<FrameHandlerMut>`) as pure functions `Frame -> Frame`
(the default hooks only log, hence are the identity).
-/

namespace Stomp

/-- A STOMP header list: ordered (key, value) pairs, duplicates allowed. -/
abbrev HeaderList := List (String × String)

/-- A STOMP frame: command, ordered headers, opaque body bytes
(`frame.rs::Frame`). -/
structure Frame where
  command : String
  headers : HeaderList
  body : List Nat
  deriving DecidableEq, Repr

/-- Modelled from the spec: the typed header accessors of `header.rs`
(`StompHeaderSet`), whose source is not under `src/`.  The spec says
headers expose typed accessors for `subscription`, `ack`, `receipt-id`,
`receipt`; each returns the value of the first header with that key. -/
def getHeader (hs : HeaderList) (k : String) : Option String :=
  (hs.find? (fun h => h.1 = k)).map (fun h => h.2)

/-- Accessor for the subscription header (`headers.get_subscription()`). -/
def get_subscription (hs : HeaderList) : Option String :=
  getHeader hs "subscription"

/-- Accessor for the ack header (`headers.get_ack()`). -/
def get_ack (hs : HeaderList) : Option String :=
  getHeader hs "ack"

/-- Accessor for the receipt-id header (`headers.get_receipt_id()`). -/
def get_receipt_id (hs : HeaderList) : Option String :=
  getHeader hs "receipt-id"

/-- Ack modes (`subscription.rs::AckMode`). -/
inductive AckMode where
  | Auto
  | Client
  | ClientIndividual
  deriving DecidableEq, Repr

/-- Result of a message handler (`subscription.rs::AckOrNack`). -/
inductive AckOrNack where
  | Ack
  | Nack
  deriving DecidableEq, Repr

/-- Modelled from the spec: the wire text of an ack mode, used by the
SUBSCRIBE frame factory in `frame.rs` (not under `src/`). -/
def AckMode.asText : AckMode → String
  | .Auto => "auto"
  | .Client => "client"
  | .ClientIndividual => "client-individual"

/-- Modelled from the spec: `Frame::subscribe` from `frame.rs` (not under
`src/`).  A SUBSCRIBE frame carrying the subscription id, destination and
ack mode, with an empty body. -/
def Frame.subscribe (subId destination : String) (mode : AckMode) : Frame :=
  { command := "SUBSCRIBE"
    headers := [("destination", destination), ("id", subId), ("ack", AckMode.asText mode)]
    body := [] }

/-- Modelled from the spec: `Frame::unsubscribe` from `frame.rs` (not under
`src/`).  An UNSUBSCRIBE frame carrying the subscription id. -/
def Frame.unsubscribe (subId : String) : Frame :=
  { command := "UNSUBSCRIBE"
    headers := [("id", subId)]
    body := [] }

/-- Modelled from the spec: `Frame::ack` from `frame.rs` (not under `src/`).
Spec scenario 3 shows the wire form `ACK` with a single `id` header. -/
def Frame.ack (ackId : String) : Frame :=
  { command := "ACK"
    headers := [("id", ackId)]
    body := [] }

/-- Modelled from the spec: `Frame::nack` from `frame.rs` (not under `src/`),
symmetric to `Frame::ack`. -/
def Frame.nack (ackId : String) : Frame :=
  { command := "NACK"
    headers := [("id", ackId)]
    body := [] }

/-- A registered subscription (`subscription.rs::Subscription`): id,
destination, ack mode, extra headers, and the message handler.  The handler
is modelled as a pure function from the received frame to `AckOrNack`. -/
structure Subscription where
  id : String
  destination : String
  ackMode : AckMode
  headers : HeaderList
  handler : Frame → AckOrNack

/-- The live connection (`connection.rs::Connection`).  `socketId`
identifies the underlying TCP stream; `writeError` is `none` when writes
to the stream succeed and `some e` when they fail with I/O error code
`e`. -/
structure Connection where
  socketId : Nat
  writeError : Option Nat
  deriving DecidableEq, Repr

/-- 2 ^ 32, the modulus of the `u32` counters. -/
def U32_MOD : Nat := 4294967296

/-- 2 ^ 32 - 1, the largest `u32` value (saturation bound of `as u32`). -/
def U32_MAX : Nat := 4294967295

/-- The session state (`session.rs::Session`).  The read buffer, the frame
buffer and the captured `SessionBuilder` are not represented: the claims
under verification do not mention their contents.  `rxHeartbeatTimeout`
stores the mio timeout handle of the pending receive-watchdog timer, if
any.  `R` is the type of receipt handlers. -/
structure Session (R : Type) where
  connection : Connection
  nextTransactionId : Nat
  nextSubscriptionId : Nat
  nextReceiptId : Nat
  rxHeartbeatMs : Nat
  rxHeartbeatTimeout : Option Nat
  txHeartbeatMs : Nat
  subscriptions : List (String × Subscription)
  receiptHandlers : List (String × R)
  errorCallback : Frame → Frame
  frameSendCallback : Frame → Frame
  frameReceiveCallback : Frame → Frame

/-- `Session::new`.  The Rust code computes
`((rx_heartbeat_ms as f64) * GRACE_PERIOD_MULTIPLIER) as u32` with
`GRACE_PERIOD_MULTIPLIER = 2.0`: for `rx < 2^32` the product `2 * rx` is
exact in `f64` and the cast `as u32` saturates at `u32::MAX`, hence
`min (2 * rx) U32_MAX`.  It computes `(tx_heartbeat_ms as f64 / 2f64) as
u64`, which truncates the exact half toward zero, hence `tx / 2` in `Nat`
division.  Counters start at 0, both registries empty, the three
callbacks are the defaults (which only log, i.e. the identity). -/
def Session.new (R : Type) (conn : Connection) (tx rx : Nat) : Session R :=
  { connection := conn
    nextTransactionId := 0
    nextSubscriptionId := 0
    nextReceiptId := 0
    rxHeartbeatMs := min (2 * rx) U32_MAX
    rxHeartbeatTimeout := none
    txHeartbeatMs := tx / 2
    subscriptions := []
    receiptHandlers := []
    errorCallback := fun f => f
    frameSendCallback := fun f => f
    frameReceiveCallback := fun f => f }

/-- The error message produced by `Session::send` on any write failure. -/
def connectionLostMessage : String :=
  "Could not send frame: the connection to the server was lost."

/-- `Session::send`: apply the user pre-send hook to the frame, then
serialise it onto the socket.  Returns the result together with the frame
that was handed to serialisation (the hook output).  Any I/O error is
collapsed into the single generic connection-lost error. -/
def Session.send {R : Type} (s : Session R) (frame : Frame) :
    Except String Unit × Frame :=
  let written := s.frameSendCallback frame
  match s.connection.writeError with
  | none => (Except.ok (), written)
  | some _ => (Except.error connectionLostMessage, written)

/-- Lookup in an association list, as `HashMap::get` on a map with unique
keys. -/
def assocFind {α : Type} (l : List (String × α)) (k : String) : Option α :=
  (l.find? (fun kv => kv.1 = k)).map (fun kv => kv.2)

/-- Removal from an association list, as `HashMap::remove` on a map with
unique keys. -/
def eraseKey {α : Type} (l : List (String × α)) (k : String) :
    List (String × α) :=
  l.filter (fun kv => kv.1 ≠ k)

/-- `Session::outstanding_receipts`: the pending receipt ids. -/
def Session.outstanding_receipts {R : Type} (s : Session R) : List String :=
  s.receiptHandlers.map (fun kv => kv.1)

/-- `Session::generate_transaction_id`: return the counter, then increment
it (wrapping, as a release-mode `u32 += 1`). -/
def Session.generate_transaction_id {R : Type} (s : Session R) :
    Nat × Session R :=
  (s.nextTransactionId,
   { s with nextTransactionId := (s.nextTransactionId + 1) % U32_MOD })

/-- `Session::generate_subscription_id`: return the counter, then increment
it (wrapping). -/
def Session.generate_subscription_id {R : Type} (s : Session R) :
    Nat × Session R :=
  (s.nextSubscriptionId,
   { s with nextSubscriptionId := (s.nextSubscriptionId + 1) % U32_MOD })

/-- `Session::generate_receipt_id`: return the counter, then increment it
(wrapping). -/
def Session.generate_receipt_id {R : Type} (s : Session R) :
    Nat × Session R :=
  (s.nextReceiptId,
   { s with nextReceiptId := (s.nextReceiptId + 1) % U32_MOD })

/-- Result of `Session::unsubscribe`: the updated session, the frame handed
to `send`, the frame handed to serialisation, and the send result. -/
structure UnsubscribeOutcome (R : Type) where
  session : Session R
  frameSent : Frame
  frameWritten : Frame
  result : Except String Unit

/-- `Session::unsubscribe`: remove the id from the subscription registry
(ignoring whether it was present), build an UNSUBSCRIBE frame for the id,
and send it. -/
def Session.unsubscribe {R : Type} (s : Session R) (subId : String) :
    UnsubscribeOutcome R :=
  let s1 : Session R := { s with subscriptions := eraseKey s.subscriptions subId }
  let fr := Frame.unsubscribe subId
  let out := s1.send fr
  { session := s1, frameSent := fr, frameWritten := out.2, result := out.1 }

/-- Fatal session failures: the panic and expect calls of `handle_receipt`
and `dispatch`. -/
inductive Fatal where
  | missingReceiptId
  | unknownReceipt
  | missingSubscription
  | unknownSubscription
  | missingAck
  | ackSendFailed
  deriving DecidableEq, Repr

/-- Observable callback and socket events of one dispatch. -/
inductive Event (R : Type) where
  | errorCb (frame : Frame)
  | receiptCb (handler : R) (frame : Frame)
  | msgCb (subId : String) (result : AckOrNack)
  | sent (frame : Frame) (written : Frame)
  deriving DecidableEq, Repr

/-- `Session::handle_receipt`: read the `receipt-id` header (absence is a
panic), remove the matching handler from the receipt registry (absence is
a panic), and return it for invocation together with the updated
session. -/
def Session.handle_receipt {R : Type} (s : Session R) (frame : Frame) :
    Except Fatal (R × Session R) :=
  match get_receipt_id frame.headers with
  | none => Except.error Fatal.missingReceiptId
  | some rid =>
    match assocFind s.receiptHandlers rid with
    | none => Except.error Fatal.unknownReceipt
    | some h =>
      Except.ok (h, { s with receiptHandlers := eraseKey s.receiptHandlers rid })

/-- The ACK or NACK frame chosen from the handler result
(`acknowledge_frame` / `negatively_acknowledge_frame`). -/
def ackOrNackFrame : AckOrNack → String → Frame
  | .Ack, ackId => Frame.ack ackId
  | .Nack, ackId => Frame.nack ackId

/-- `Session::dispatch`: route an inbound frame by command.  Returns the
resulting session (or the fatal failure) together with the list of
observable events that happened before the outcome, in order.  The
`ERROR` branch invokes the error callback; the `RECEIPT` branch delegates
to `handle_receipt` and invokes the removed handler once; every other
command looks up the subscription named by the `subscription` header,
invokes its handler, and for non-`Auto` ack modes sends exactly one ACK
or NACK frame carrying the `ack` header value (a send failure there is a
panic). -/
def Session.dispatch {R : Type} (s : Session R) (frame : Frame) :
    Except Fatal (Session R) × List (Event R) :=
  if frame.command = "ERROR" then
    (Except.ok s, [Event.errorCb frame])
  else if frame.command = "RECEIPT" then
    match s.handle_receipt frame with
    | Except.error e => (Except.error e, [])
    | Except.ok (h, s1) => (Except.ok s1, [Event.receiptCb h frame])
  else
    match get_subscription frame.headers with
    | none => (Except.error Fatal.missingSubscription, [])
    | some subId =>
      match assocFind s.subscriptions subId with
      | none => (Except.error Fatal.unknownSubscription, [])
      | some sub =>
        let result := sub.handler frame
        match sub.ackMode with
        | AckMode.Auto => (Except.ok s, [Event.msgCb subId result])
        | _ =>
          match get_ack frame.headers with
          | none => (Except.error Fatal.missingAck, [Event.msgCb subId result])
          | some ackId =>
            let af := ackOrNackFrame result ackId
            let out := s.send af
            match out.1 with
            | Except.ok _ =>
              (Except.ok s, [Event.msgCb subId result, Event.sent af out.2])
            | Except.error _ =>
              (Except.error Fatal.ackSendFailed, [Event.msgCb subId result])

/-- Modelled from the spec: `SessionBuilder::start` from
`session_builder.rs` (not under `src/`).  Per the spec, the builder
re-runs the connection factory (TCP connect + STOMP handshake) and hands
the core a live stream plus the negotiated heartbeat intervals; the
session it returns is a fresh one built by `Session::new` from those.
The new connection and negotiated intervals are passed as arguments. -/
def sessionBuilderStart (R : Type) (conn : Connection) (tx rx : Nat) :
    Session R :=
  Session.new R conn tx rx

/-- The replayed SUBSCRIBE frame built for one registered subscription
during reconnect: `Frame::subscribe(id, destination, ack_mode)` with the
clone of the stored headers concatenated, then every header whose key is
`receipt` removed (`retain`). -/
def resubscribeFrame (sub : Subscription) : Frame :=
  let base := Frame.subscribe sub.id sub.destination sub.ackMode
  let withStored : Frame := { base with headers := base.headers ++ sub.headers }
  { withStored with
    headers := withStored.headers.filter (fun h => h.1 ≠ "receipt") }

/-- The successful arm of `Session::reconnect`: save the subscription map
(`mem::replace(&mut self.subscriptions, HashMap::new())`), replace the
whole session with the fresh one returned by the builder
(`mem::replace(self, session)`), restore the saved subscriptions, and
send one replayed SUBSCRIBE frame per registered subscription.  Returns
the resulting session and the frames handed to `send`, in registry
order. -/
def Session.reconnect {R : Type} (old : Session R) (conn : Connection)
    (tx rx : Nat) : Session R × List Frame :=
  let saved := old.subscriptions
  let fresh := sessionBuilderStart R conn tx rx
  let s2 : Session R := { fresh with subscriptions := saved }
  let frames := s2.subscriptions.map (fun kv => resubscribeFrame kv.2)
  (s2, frames)

/-- The reactor timer registry (the mio `EventLoop` restricted to what the
session uses): the pending `ReceiveHeartBeat` and `SendHeartBeat`
timeouts, each a pair of a fresh handle and its period in ms. -/
structure EventLoopState where
  rxTimeouts : List (Nat × Nat)
  txTimeouts : List (Nat × Nat)
  nextTimeoutId : Nat
  deriving DecidableEq, Repr

/-- An event loop with no pending timeouts. -/
def EventLoopState.empty : EventLoopState :=
  { rxTimeouts := [], txTimeouts := [], nextTimeoutId := 0 }

/-- `Session::register_tx_heartbeat_timeout`: no-op when the stored tx
interval is 0, otherwise arm a `SendHeartBeat` timeout with that period
(the handle is discarded by the code). -/
def register_tx_heartbeat_timeout {R : Type} (s : Session R)
    (l : EventLoopState) : EventLoopState :=
  if s.txHeartbeatMs = 0 then l
  else
    { l with
      txTimeouts := l.txTimeouts ++ [(l.nextTimeoutId, s.txHeartbeatMs)]
      nextTimeoutId := l.nextTimeoutId + 1 }

/-- `Session::register_rx_heartbeat_timeout`: no-op when the stored rx
interval is 0, otherwise arm a `ReceiveHeartBeat` timeout with that
period and store its handle in the session. -/
def register_rx_heartbeat_timeout {R : Type} (s : Session R)
    (l : EventLoopState) : Session R × EventLoopState :=
  if s.rxHeartbeatMs = 0 then (s, l)
  else
    ({ s with rxHeartbeatTimeout := some l.nextTimeoutId },
     { l with
       rxTimeouts := l.rxTimeouts ++ [(l.nextTimeoutId, s.rxHeartbeatMs)]
       nextTimeoutId := l.nextTimeoutId + 1 })

/-- `Session::clear_rx_heartbeat_timeout`: cancel the stored
receive-watchdog timeout, if any (the stored handle itself is left in
place, matching the code). -/
def clear_rx_heartbeat_timeout {R : Type} (s : Session R)
    (l : EventLoopState) : EventLoopState :=
  match s.rxHeartbeatTimeout with
  | none => l
  | some t => { l with rxTimeouts := l.rxTimeouts.filter (fun tp => tp.1 ≠ t) }

/-- `Session::reset_rx_heartbeat_timeout`: clear the previous watchdog
timeout, then register a new one. -/
def reset_rx_heartbeat_timeout {R : Type} (s : Session R)
    (l : EventLoopState) : Session R × EventLoopState :=
  register_rx_heartbeat_timeout s (clear_rx_heartbeat_timeout s l)

/-- A pending receive-watchdog timeout fires: the reactor removes it; the
session handler for `ReceiveHeartBeat` only logs and re-arms nothing. -/
def fireRxTimeout (l : EventLoopState) (t : Nat) : EventLoopState :=
  { l with rxTimeouts := l.rxTimeouts.filter (fun tp => tp.1 ≠ t) }

/-- The timer effects of a successful `Session::reconnect`: clear the old
watchdog timeout, replace the session (fresh handle is `none`), register
a watchdog timeout, then reset it, exactly in the order of the code. -/
def reconnectLoopState {R : Type} (old : Session R) (l : EventLoopState)
    (conn : Connection) (tx rx : Nat) : Session R × EventLoopState :=
  let l1 := clear_rx_heartbeat_timeout old l
  let s1 := (old.reconnect conn tx rx).1
  let p2 := register_rx_heartbeat_timeout s1 l1
  reset_rx_heartbeat_timeout p2.1 p2.2

/-- `Session::listen` start-up: a fresh event loop, then
`register_tx_heartbeat_timeout` and `register_rx_heartbeat_timeout`. -/
def listenStart {R : Type} (s : Session R) : Session R × EventLoopState :=
  let l1 := register_tx_heartbeat_timeout s EventLoopState.empty
  register_rx_heartbeat_timeout s l1

/-- The steps of the reactor loop that touch the receive-watchdog state:
an inbound heartbeat (`on_heartbeat`), an inbound complete frame (the
`CompleteFrame` arm of `readable`), a firing of a pending watchdog
timeout, and a successful reconnect. -/
inductive RxStep {R : Type} :
    (Session R × EventLoopState) → (Session R × EventLoopState) → Prop where
  | inboundHeartbeat (p : Session R × EventLoopState) :
      RxStep p (reset_rx_heartbeat_timeout p.1 p.2)
  | inboundFrame (p : Session R × EventLoopState) :
      RxStep p (reset_rx_heartbeat_timeout p.1 p.2)
  | rxTimerFires (p : Session R × EventLoopState) (t : Nat)
      (h : t ∈ p.2.rxTimeouts.map Prod.fst) :
      RxStep p (p.1, fireRxTimeout p.2 t)
  | reconnectSuccess (p : Session R × EventLoopState) (conn : Connection)
      (tx rx : Nat) :
      RxStep p (reconnectLoopState p.1 p.2 conn tx rx)

/-- Reachable session-and-loop states: those obtained from the start of
`listen` on some session by zero or more reactor steps. -/
def RxReachable {R : Type} (p : Session R × EventLoopState) : Prop :=
  ∃ s0 : Session R, Relation.ReflTransGen RxStep (listenStart s0) p

/-- The receive-watchdog invariant: no pending watchdog timeout, or
exactly one whose handle is the one stored in the session. -/
def RxInv {R : Type} (p : Session R × EventLoopState) : Prop :=
  p.2.rxTimeouts = [] ∨
    ∃ tp : Nat × Nat, p.2.rxTimeouts = [tp] ∧ p.1.rxHeartbeatTimeout = some tp.1

/-- Concrete connection used by witnesses. -/
def wConn : Connection := { socketId := 0, writeError := none }

/-- Concrete connection whose writes fail, used by the send witness. -/
def wConnBad : Connection := { socketId := 0, writeError := some 3 }

/-- Concrete subscription with Client ack mode, used by witnesses. -/
def wSubClient : Subscription :=
  { id := "0", destination := "/q/a", ackMode := AckMode.Client
    headers := [("receipt", "r1"), ("x", "y")]
    handler := fun _ => AckOrNack.Ack }

/-- Concrete session used by the dispatch witnesses. -/
def wSession : Session Nat :=
  { Session.new Nat wConn 1000 1000 with
    subscriptions := [("0", wSubClient)]
    receiptHandlers := [("0", 7)] }

/-- Concrete RECEIPT frame carrying receipt-id 0. -/
def wReceiptFrame : Frame :=
  { command := "RECEIPT", headers := [("receipt-id", "0")], body := [] }

/-- Concrete MESSAGE frame for subscription 0 carrying ack id a1. -/
def wMessageFrame : Frame :=
  { command := "MESSAGE"
    headers := [("subscription", "0"), ("ack", "a1")]
    body := [] }

/-- Concrete session holding a pending receipt and nonzero counters, used
by the reconnect counterexamples and witnesses. -/
def cOldSession : Session Nat :=
  { Session.new Nat wConn 500 500 with
    nextTransactionId := 5
    nextSubscriptionId := 6
    nextReceiptId := 7
    subscriptions := [("0", wSubClient)]
    receiptHandlers := [("0", 42)] }

/-- Connection of the replacement session in the reconnect examples. -/
def cNewConn : Connection := { socketId := 1, writeError := none }

/-- Concrete session used by the watchdog witness. -/
def wS9 : Session Unit := Session.new Unit wConn 1000 1000

/-- Claim C8: for every frame passed to send, the pre-send hook output is
what reaches serialisation; a successful write returns ok, and any I/O
error is translated into the single generic connection-lost error. -/
theorem send_hook_and_error_translation (R : Type) (s : Session R) (frame : Frame) :
    (s.send frame).2 = s.frameSendCallback frame ∧
    (s.connection.writeError = none → (s.send frame).1 = Except.ok ()) ∧
    (∀ e : Nat, s.connection.writeError = some e →
      (s.send frame).1 = Except.error connectionLostMessage) := by
  unfold Session.send
  cases h : s.connection.writeError <;> simp [h]

/-- Witness for C8 at concrete inputs, exercising both the success branch
and the failure branch. -/
theorem send_hook_and_error_translation_witness :
    ((wSession.send wReceiptFrame).1 = Except.ok () ∧
     (({ wSession with connection := wConnBad }).send wReceiptFrame).1
        = Except.error connectionLostMessage) :=
  ⟨(send_hook_and_error_translation Nat wSession wReceiptFrame).2.1 rfl,
   (send_hook_and_error_translation Nat { wSession with connection := wConnBad }
      wReceiptFrame).2.2 3 rfl⟩

/-- Claim C7: within each namespace, generate returns the current counter
and the next call returns its wrapping successor, hence a strictly
greater id until the u32 counter wraps; each call leaves the other two
counters untouched. -/
theorem generate_id_counters (R : Type) (s : Session R) :
    ((s.generate_transaction_id.1 = s.nextTransactionId ∧
      s.generate_transaction_id.2.generate_transaction_id.1
        = (s.generate_transaction_id.1 + 1) % U32_MOD ∧
      (s.generate_transaction_id.1 + 1 < U32_MOD →
        s.generate_transaction_id.1
          < s.generate_transaction_id.2.generate_transaction_id.1)) ∧
     s.generate_transaction_id.2.nextSubscriptionId = s.nextSubscriptionId ∧
     s.generate_transaction_id.2.nextReceiptId = s.nextReceiptId) ∧
    ((s.generate_subscription_id.1 = s.nextSubscriptionId ∧
      s.generate_subscription_id.2.generate_subscription_id.1
        = (s.generate_subscription_id.1 + 1) % U32_MOD ∧
      (s.generate_subscription_id.1 + 1 < U32_MOD →
        s.generate_subscription_id.1
          < s.generate_subscription_id.2.generate_subscription_id.1)) ∧
     s.generate_subscription_id.2.nextTransactionId = s.nextTransactionId ∧
     s.generate_subscription_id.2.nextReceiptId = s.nextReceiptId) ∧
    ((s.generate_receipt_id.1 = s.nextReceiptId ∧
      s.generate_receipt_id.2.generate_receipt_id.1
        = (s.generate_receipt_id.1 + 1) % U32_MOD ∧
      (s.generate_receipt_id.1 + 1 < U32_MOD →
        s.generate_receipt_id.1
          < s.generate_receipt_id.2.generate_receipt_id.1)) ∧
     s.generate_receipt_id.2.nextTransactionId = s.nextTransactionId ∧
     s.generate_receipt_id.2.nextSubscriptionId = s.nextSubscriptionId) := by
  have key : ∀ n : Nat, n + 1 < U32_MOD → n < (n + 1) % U32_MOD := by
    intro n h
    rw [Nat.mod_eq_of_lt h]
    omega
  exact ⟨⟨⟨rfl, rfl, fun h => key _ h⟩, rfl, rfl⟩,
    ⟨⟨rfl, rfl, fun h => key _ h⟩, rfl, rfl⟩,
    ⟨⟨rfl, rfl, fun h => key _ h⟩, rfl, rfl⟩⟩

/-- Witness for C7: two receipt ids generated in a row from the concrete
session are 7 then 8. -/
theorem generate_id_counters_witness :
    cOldSession.generate_receipt_id.1 + 1 < U32_MOD ∧
    cOldSession.generate_receipt_id.1
      < cOldSession.generate_receipt_id.2.generate_receipt_id.1 :=
  ⟨by decide, ((generate_id_counters Nat cOldSession).2.2.1).2.2 (by decide)⟩

/-- Claim C4: a dispatched RECEIPT frame without a receipt-id header is a
fatal protocol violation; a receipt-id outside the receipt registry is a
fatal protocol violation; otherwise the matching handler is removed from
the registry and invoked exactly once with the frame, and the id is no
longer among the outstanding receipts. -/
theorem dispatch_receipt_behavior (R : Type) (s : Session R) (frame : Frame)
    (hcmd : frame.command = "RECEIPT") :
    (get_receipt_id frame.headers = none →
      s.dispatch frame = (Except.error Fatal.missingReceiptId, [])) ∧
    (∀ rid, get_receipt_id frame.headers = some rid →
      assocFind s.receiptHandlers rid = none →
      s.dispatch frame = (Except.error Fatal.unknownReceipt, [])) ∧
    (∀ rid h, get_receipt_id frame.headers = some rid →
      assocFind s.receiptHandlers rid = some h →
      s.dispatch frame
        = (Except.ok { s with receiptHandlers := eraseKey s.receiptHandlers rid },
           [Event.receiptCb h frame]) ∧
      rid ∉ Session.outstanding_receipts
        { s with receiptHandlers := eraseKey s.receiptHandlers rid }) := by
  have hne : frame.command ≠ "ERROR" := by rw [hcmd]; decide
  refine ⟨?_, ?_, ?_⟩
  · intro h0
    simp [Session.dispatch, Session.handle_receipt, hcmd, hne, h0]
  · intro rid h0 h1
    simp [Session.dispatch, Session.handle_receipt, hcmd, hne, h0, h1]
  · intro rid h h0 h1
    constructor
    · simp [Session.dispatch, Session.handle_receipt, hcmd, hne, h0, h1]
    · simp [Session.outstanding_receipts, eraseKey, List.mem_map, List.mem_filter]

/-- Witness for C4: dispatching a concrete RECEIPT frame removes and
invokes the stored handler, and receipt id 0 is no longer outstanding. -/
theorem dispatch_receipt_behavior_witness :
    wSession.dispatch wReceiptFrame
        = (Except.ok { wSession with receiptHandlers := eraseKey wSession.receiptHandlers "0" },
           [Event.receiptCb 7 wReceiptFrame]) ∧
    "0" ∉ Session.outstanding_receipts
        { wSession with receiptHandlers := eraseKey wSession.receiptHandlers "0" } :=
  (dispatch_receipt_behavior Nat wSession wReceiptFrame rfl).2.2 "0" 7 rfl rfl

/-- Claim C5: for dispatched frames that are neither ERROR nor RECEIPT,
the subscription header is read first and its absence is fatal before any
missing-ack failure; an unknown subscription id is fatal; the handler of
the named subscription is invoked once; Auto ack mode sends nothing
further, while the other modes read the ack header (absence fatal) and
send exactly one ACK or NACK frame carrying that ack id according to the
handler result. -/
theorem dispatch_message_behavior (R : Type) (s : Session R) (frame : Frame)
    (hc1 : frame.command ≠ "ERROR") (hc2 : frame.command ≠ "RECEIPT") :
    (get_subscription frame.headers = none →
      s.dispatch frame = (Except.error Fatal.missingSubscription, [])) ∧
    (∀ subId, get_subscription frame.headers = some subId →
      assocFind s.subscriptions subId = none →
      s.dispatch frame = (Except.error Fatal.unknownSubscription, [])) ∧
    (∀ subId sub, get_subscription frame.headers = some subId →
      assocFind s.subscriptions subId = some sub →
      (sub.ackMode = AckMode.Auto →
        s.dispatch frame = (Except.ok s, [Event.msgCb subId (sub.handler frame)])) ∧
      (sub.ackMode ≠ AckMode.Auto →
        (get_ack frame.headers = none →
          s.dispatch frame
            = (Except.error Fatal.missingAck,
               [Event.msgCb subId (sub.handler frame)])) ∧
        (∀ ackId, get_ack frame.headers = some ackId →
          s.connection.writeError = none →
          s.dispatch frame
            = (Except.ok s,
               [Event.msgCb subId (sub.handler frame),
                Event.sent (ackOrNackFrame (sub.handler frame) ackId)
                  (s.frameSendCallback
                    (ackOrNackFrame (sub.handler frame) ackId))])))) := by
  refine ⟨?_, ?_, ?_⟩
  · intro h0
    simp [Session.dispatch, hc1, hc2, h0]
  · intro subId h0 h1
    simp [Session.dispatch, hc1, hc2, h0, h1]
  · intro subId sub h0 h1
    constructor
    · intro hauto
      simp [Session.dispatch, hc1, hc2, h0, h1, hauto]
    · intro hother
      constructor
      · intro hack
        cases hmode : sub.ackMode with
        | Auto => exact absurd hmode hother
        | Client => simp [Session.dispatch, hc1, hc2, h0, h1, hmode, hack]
        | ClientIndividual => simp [Session.dispatch, hc1, hc2, h0, h1, hmode, hack]
      · intro ackId hack hw
        cases hmode : sub.ackMode with
        | Auto => exact absurd hmode hother
        | Client =>
          simp [Session.dispatch, Session.send, hc1, hc2, h0, h1, hmode, hack, hw]
        | ClientIndividual =>
          simp [Session.dispatch, Session.send, hc1, hc2, h0, h1, hmode, hack, hw]

/-- Witness for C5: dispatching a concrete MESSAGE frame to a Client-mode
subscription whose handler acks sends exactly one ACK frame with the ack
id of the frame. -/
theorem dispatch_message_behavior_witness :
    wSession.dispatch wMessageFrame
      = (Except.ok wSession,
         [Event.msgCb "0" (wSubClient.handler wMessageFrame),
          Event.sent (ackOrNackFrame (wSubClient.handler wMessageFrame) "a1")
            (wSession.frameSendCallback
              (ackOrNackFrame (wSubClient.handler wMessageFrame) "a1"))]) :=
  (((dispatch_message_behavior Nat wSession wMessageFrame (by decide) (by decide)).2.2
      "0" wSubClient rfl rfl).2 (by decide)).2 "a1" rfl rfl

/-- Claim C6 (counterexample): the claim states the receive-watchdog
period is rx_heartbeat_ms * 2.0; but the Rust cast `as u32` saturates, so
for rx = 2^31 the stored period is 2^32 - 1, not 2^32. -/
theorem heartbeat_rx_period_cex :
    ¬ ((Session.new Unit wConn 0 2147483648).rxHeartbeatMs = 2147483648 * 2) := by
  decide

/-- Claim C6 (amended): the send-heartbeat period is tx / 2 (integer
halving) and the receive-watchdog period is 2 * rx saturated at the u32
maximum; a zero interval on a side means no timeout is ever registered on
that side, and a positive stored period registers a single timeout with
exactly that period. -/
theorem heartbeat_timer_periods (R : Type) (conn : Connection) (tx rx : Nat)
    (htx : tx < U32_MOD) (hrx : rx < U32_MOD) :
    (Session.new R conn tx rx).txHeartbeatMs = tx / 2 ∧
    (Session.new R conn tx rx).rxHeartbeatMs = min (2 * rx) U32_MAX ∧
    (tx = 0 → ∀ l, register_tx_heartbeat_timeout (Session.new R conn tx rx) l = l) ∧
    (rx = 0 → ∀ l,
      register_rx_heartbeat_timeout (Session.new R conn tx rx) l
        = (Session.new R conn tx rx, l)) ∧
    (0 < tx / 2 → ∀ l,
      (register_tx_heartbeat_timeout (Session.new R conn tx rx) l).txTimeouts
        = l.txTimeouts ++ [(l.nextTimeoutId, tx / 2)]) ∧
    (0 < rx → ∀ l,
      ((register_rx_heartbeat_timeout (Session.new R conn tx rx) l).2).rxTimeouts
        = l.rxTimeouts ++ [(l.nextTimeoutId, min (2 * rx) U32_MAX)]) := by
  refine ⟨rfl, rfl, ?_, ?_, ?_, ?_⟩
  · intro h l
    simp [register_tx_heartbeat_timeout, Session.new, h]
  · intro h l
    simp [register_rx_heartbeat_timeout, Session.new, h]
  · intro h l
    simp only [register_tx_heartbeat_timeout, Session.new]
    rw [if_neg (by omega)]
  · intro h l
    have hpos : ¬ (min (2 * rx) U32_MAX = 0) := by
      have : 0 < U32_MAX := by decide
      omega
    simp only [register_rx_heartbeat_timeout, Session.new]
    rw [if_neg hpos]

/-- Witness for C6 at tx = rx = 1000: stored periods 500 and 2000, and a
registration appends one rx timeout of period 2000. -/
theorem heartbeat_timer_periods_witness :
    (Session.new Unit wConn 1000 1000).txHeartbeatMs = 1000 / 2 ∧
    (Session.new Unit wConn 1000 1000).rxHeartbeatMs = min (2 * 1000) U32_MAX ∧
    ((register_rx_heartbeat_timeout (Session.new Unit wConn 1000 1000)
        EventLoopState.empty).2).rxTimeouts
      = EventLoopState.empty.rxTimeouts ++ [(EventLoopState.empty.nextTimeoutId, min (2 * 1000) U32_MAX)] :=
  ⟨(heartbeat_timer_periods Unit wConn 1000 1000 (by decide) (by decide)).1,
   (heartbeat_timer_periods Unit wConn 1000 1000 (by decide) (by decide)).2.1,
   (heartbeat_timer_periods Unit wConn 1000 1000 (by decide) (by decide)).2.2.2.2.2
     (by decide) EventLoopState.empty⟩

/-- Claim C10: unsubscribing an id that is not in the subscription
registry leaves the registry unchanged, still sends an UNSUBSCRIBE frame
for that id, returns exactly the result of that send, and never reports
the absence of the id as an error (the result is ok precisely when the
socket write succeeds). -/
theorem unsubscribe_unknown_id (R : Type) (s : Session R) (subId : String)
    (habs : subId ∉ s.subscriptions.map Prod.fst) :
    (s.unsubscribe subId).session.subscriptions = s.subscriptions ∧
    (s.unsubscribe subId).frameSent = Frame.unsubscribe subId ∧
    (s.unsubscribe subId).result
      = ((s.unsubscribe subId).session.send (Frame.unsubscribe subId)).1 ∧
    ((s.unsubscribe subId).result = Except.ok ()
      ↔ s.connection.writeError = none) := by
  refine ⟨?_, rfl, rfl, ?_⟩
  · simp only [Session.unsubscribe, eraseKey]
    apply List.filter_eq_self.mpr
    intro kv hkv
    simp only [ne_eq, decide_not]
    have : kv.1 ≠ subId := by
      intro heq
      exact habs (List.mem_map.mpr ⟨kv, hkv, heq⟩)
    simp [this]
  · simp only [Session.unsubscribe, Session.send]
    cases h : s.connection.writeError <;> simp [h]

/-- Witness for C10: unsubscribing the unknown id 9 from the concrete
session leaves its registry unchanged and sends UNSUBSCRIBE for id 9. -/
theorem unsubscribe_unknown_id_witness :
    (wSession.unsubscribe "9").session.subscriptions = wSession.subscriptions ∧
    (wSession.unsubscribe "9").frameSent = Frame.unsubscribe "9" ∧
    ((wSession.unsubscribe "9").result = Except.ok ()
      ↔ wSession.connection.writeError = none) :=
  ⟨(unsubscribe_unknown_id Nat wSession "9" (by decide)).1,
   (unsubscribe_unknown_id Nat wSession "9" (by decide)).2.1,
   (unsubscribe_unknown_id Nat wSession "9" (by decide)).2.2.2⟩

/-- Claim C1 (counterexample): the claim states the id counters are
unchanged across a successful reconnect; on the concrete session with
next_transaction_id 5 the counter after reconnect is 0. -/
theorem reconnect_counters_reset_cex :
    ¬ ((cOldSession.reconnect cNewConn 500 500).1.nextTransactionId
        = cOldSession.nextTransactionId ∧
       (cOldSession.reconnect cNewConn 500 500).1.nextSubscriptionId
        = cOldSession.nextSubscriptionId ∧
       (cOldSession.reconnect cNewConn 500 500).1.nextReceiptId
        = cOldSession.nextReceiptId) := by
  decide

/-- Claim C1 (amended): after a successful reconnect the socket and the
negotiated intervals are those of the new connection and the subscription
registry is preserved, but the three id counters are reset to 0 and the
receipt registry and the three user callbacks are reset to the fresh
defaults of Session::new, because the code replaces the whole session and
restores only the subscription map. -/
theorem reconnect_frame_conditions (R : Type) (old : Session R)
    (conn : Connection) (tx rx : Nat) (hconn : conn.writeError = none) :
    ((old.reconnect conn tx rx).1.connection = conn ∧
     (old.reconnect conn tx rx).1.txHeartbeatMs = tx / 2 ∧
     (old.reconnect conn tx rx).1.rxHeartbeatMs = min (2 * rx) U32_MAX) ∧
    (old.reconnect conn tx rx).1.subscriptions = old.subscriptions ∧
    ((old.reconnect conn tx rx).1.nextTransactionId = 0 ∧
     (old.reconnect conn tx rx).1.nextSubscriptionId = 0 ∧
     (old.reconnect conn tx rx).1.nextReceiptId = 0) ∧
    (old.reconnect conn tx rx).1.receiptHandlers = [] ∧
    ((old.reconnect conn tx rx).1.errorCallback
        = (Session.new R conn tx rx).errorCallback ∧
     (old.reconnect conn tx rx).1.frameSendCallback
        = (Session.new R conn tx rx).frameSendCallback ∧
     (old.reconnect conn tx rx).1.frameReceiveCallback
        = (Session.new R conn tx rx).frameReceiveCallback) :=
  ⟨⟨rfl, rfl, rfl⟩, rfl, ⟨rfl, rfl, rfl⟩, rfl, rfl, rfl, rfl⟩

/-- Witness for C1 on the concrete session: new connection and intervals
taken over, subscriptions preserved, counters reset. -/
theorem reconnect_frame_conditions_witness :
    (cOldSession.reconnect cNewConn 500 500).1.connection = cNewConn ∧
    (cOldSession.reconnect cNewConn 500 500).1.subscriptions
      = cOldSession.subscriptions ∧
    (cOldSession.reconnect cNewConn 500 500).1.nextTransactionId = 0 :=
  ⟨(reconnect_frame_conditions Nat cOldSession cNewConn 500 500 rfl).1.1,
   (reconnect_frame_conditions Nat cOldSession cNewConn 500 500 rfl).2.1,
   (reconnect_frame_conditions Nat cOldSession cNewConn 500 500 rfl).2.2.1.1⟩

/-- Claim C2 (counterexample): receipt id 0 is pending before the
reconnect and is no longer pending afterwards, so the receipt registry is
not preserved. -/
theorem reconnect_receipts_dropped_cex :
    "0" ∈ cOldSession.outstanding_receipts ∧
    "0" ∉ ((cOldSession.reconnect cNewConn 500 500).1).outstanding_receipts := by
  decide

/-- Claim C2 (amended): a successful reconnect resets the receipt
registry to empty: every receipt id pending before the transport failure
is dropped, because the whole-session replacement installs the fresh
empty registry of Session::new. -/
theorem reconnect_receipt_registry (R : Type) (old : Session R)
    (conn : Connection) (tx rx : Nat) (hconn : conn.writeError = none) :
    (old.reconnect conn tx rx).1.receiptHandlers = [] ∧
    ((old.reconnect conn tx rx).1).outstanding_receipts = [] ∧
    ∀ rid ∈ old.outstanding_receipts,
      rid ∉ ((old.reconnect conn tx rx).1).outstanding_receipts :=
  ⟨rfl, rfl, fun rid _ h => by simp [Session.outstanding_receipts, Session.reconnect,
    sessionBuilderStart, Session.new] at h⟩

/-- Witness for C2 on the concrete session: the registry is empty after
reconnect and the pending id 0 was dropped. -/
theorem reconnect_receipt_registry_witness :
    (cOldSession.reconnect cNewConn 500 500).1.receiptHandlers = [] ∧
    "0" ∉ ((cOldSession.reconnect cNewConn 500 500).1).outstanding_receipts :=
  ⟨(reconnect_receipt_registry Nat cOldSession cNewConn 500 500 rfl).1,
   (reconnect_receipt_registry Nat cOldSession cNewConn 500 500 rfl).2.2 "0"
     (by decide)⟩

/-- Claim C3: a successful reconnect with n registered subscriptions
hands exactly n SUBSCRIBE frames to send, one per registered
subscription, each carrying that subscription id, destination and ack
mode together with the clone of its stored headers from which every
receipt header has been removed; what reaches the socket is exactly
those frames (the fresh pre-send hook is the default), and the registry
size is unchanged. -/
theorem reconnect_replays_subscriptions (R : Type) (old : Session R)
    (conn : Connection) (tx rx : Nat) (hconn : conn.writeError = none) :
    ((old.reconnect conn tx rx).2
       = old.subscriptions.map (fun kv => resubscribeFrame kv.2) ∧
     (old.reconnect conn tx rx).2.length = old.subscriptions.length) ∧
    (∀ kv ∈ old.subscriptions,
      (resubscribeFrame kv.2).command = "SUBSCRIBE" ∧
      ("destination", kv.2.destination) ∈ (resubscribeFrame kv.2).headers ∧
      ("id", kv.2.id) ∈ (resubscribeFrame kv.2).headers ∧
      ("ack", AckMode.asText kv.2.ackMode) ∈ (resubscribeFrame kv.2).headers ∧
      (resubscribeFrame kv.2).headers
        = (Frame.subscribe kv.2.id kv.2.destination kv.2.ackMode).headers
            ++ kv.2.headers.filter (fun h => h.1 ≠ "receipt") ∧
      (∀ h ∈ (resubscribeFrame kv.2).headers, h.1 ≠ "receipt")) ∧
    ((old.reconnect conn tx rx).2.map
        (fun f => (((old.reconnect conn tx rx).1).send f).2)
      = (old.reconnect conn tx rx).2) ∧
    (old.reconnect conn tx rx).1.subscriptions.length
      = old.subscriptions.length := by
  refine ⟨⟨rfl, by simp [Session.reconnect]⟩, ?_, ?_, rfl⟩
  · intro kv _
    refine ⟨rfl, ?_, ?_, ?_, ?_, ?_⟩
    · simp [resubscribeFrame, Frame.subscribe]
    · simp [resubscribeFrame, Frame.subscribe]
    · simp [resubscribeFrame, Frame.subscribe]
    · simp [resubscribeFrame, Frame.subscribe]
    · intro h hmem
      simp only [resubscribeFrame, List.mem_filter] at hmem
      simpa using hmem.2
  · have hsend : ∀ f : Frame, (((old.reconnect conn tx rx).1).send f).2 = f := by
      intro f
      simp [Session.reconnect, sessionBuilderStart, Session.new, Session.send, hconn]
    simp [hsend]

/-- Witness for C3 on the concrete session with one subscription: the
replayed frame is the SUBSCRIBE for that subscription with the stored
receipt header stripped, and the registry size is unchanged. -/
theorem reconnect_replays_subscriptions_witness :
    (cOldSession.reconnect cNewConn 500 500).2
      = cOldSession.subscriptions.map (fun kv => resubscribeFrame kv.2) ∧
    (∀ h ∈ (resubscribeFrame wSubClient).headers, h.1 ≠ "receipt") ∧
    (cOldSession.reconnect cNewConn 500 500).1.subscriptions.length
      = cOldSession.subscriptions.length :=
  ⟨((reconnect_replays_subscriptions Nat cOldSession cNewConn 500 500 rfl).1).1,
   fun h hm =>
     ((reconnect_replays_subscriptions Nat cOldSession cNewConn 500 500 rfl).2.1
       ("0", wSubClient) (by simp [cOldSession])).2.2.2.2.2 h hm,
   (reconnect_replays_subscriptions Nat cOldSession cNewConn 500 500 rfl).2.2.2⟩

/-- Clearing the watchdog from a state satisfying the invariant leaves no
pending watchdog timeout. -/
theorem rxInv_clear {R : Type} (s : Session R) (l : EventLoopState)
    (h : RxInv (s, l)) : (clear_rx_heartbeat_timeout s l).rxTimeouts = [] := by
  rcases h with h0 | ⟨tp, hl, hs⟩
  · have h0x : l.rxTimeouts = [] := h0
    unfold clear_rx_heartbeat_timeout
    cases s.rxHeartbeatTimeout <;> simp [h0x]
  · have hlx : l.rxTimeouts = [tp] := hl
    have hsx : s.rxHeartbeatTimeout = some tp.1 := hs
    unfold clear_rx_heartbeat_timeout
    rw [hsx]
    simp [hlx]

/-- Registering a watchdog timeout on a loop with no pending watchdog
timeout re-establishes the invariant. -/
theorem rxInv_register {R : Type} (s : Session R) (l : EventLoopState)
    (h : l.rxTimeouts = []) : RxInv (register_rx_heartbeat_timeout s l) := by
  unfold register_rx_heartbeat_timeout RxInv
  split
  · exact Or.inl h
  · exact Or.inr ⟨(l.nextTimeoutId, s.rxHeartbeatMs), by simp [h], rfl⟩

/-- The number of watchdog timeouts after registering on an empty loop is
one when the rx interval is positive and zero when it is zero. -/
theorem rxInv_register_length {R : Type} (s : Session R) (l : EventLoopState)
    (h : l.rxTimeouts = []) :
    ((register_rx_heartbeat_timeout s l).2.rxTimeouts).length
      = if s.rxHeartbeatMs = 0 then 0 else 1 := by
  unfold register_rx_heartbeat_timeout
  split <;> rename_i hz <;> simp [h, hz]

/-- Resetting the watchdog preserves the invariant. -/
theorem rxInv_reset {R : Type} (s : Session R) (l : EventLoopState)
    (h : RxInv (s, l)) : RxInv (reset_rx_heartbeat_timeout s l) :=
  rxInv_register s (clear_rx_heartbeat_timeout s l) (rxInv_clear s l h)

/-- The number of watchdog timeouts after a reset from an invariant state
is one when the rx interval is positive and zero when it is zero. -/
theorem rxInv_reset_length {R : Type} (s : Session R) (l : EventLoopState)
    (h : RxInv (s, l)) :
    ((reset_rx_heartbeat_timeout s l).2.rxTimeouts).length
      = if s.rxHeartbeatMs = 0 then 0 else 1 :=
  rxInv_register_length s (clear_rx_heartbeat_timeout s l) (rxInv_clear s l h)

/-- A firing watchdog timeout preserves the invariant. -/
theorem rxInv_fire {R : Type} (s : Session R) (l : EventLoopState) (t : Nat)
    (h : RxInv (s, l)) : RxInv (s, fireRxTimeout l t) := by
  rcases h with h0 | ⟨tp, hl, hs⟩
  · have h0x : l.rxTimeouts = [] := h0
    exact Or.inl (by simp [fireRxTimeout, h0x])
  · have hlx : l.rxTimeouts = [tp] := hl
    by_cases ht : tp.1 = t
    · exact Or.inl (by simp [fireRxTimeout, hlx, ht])
    · exact Or.inr ⟨tp, by simp [fireRxTimeout, hlx, ht], hs⟩

/-- The timer effects of a successful reconnect preserve the invariant. -/
theorem rxInv_reconnect {R : Type} (p : Session R × EventLoopState)
    (conn : Connection) (tx rx : Nat) (h : RxInv p) :
    RxInv (reconnectLoopState p.1 p.2 conn tx rx) := by
  unfold reconnectLoopState
  have h1 : (clear_rx_heartbeat_timeout p.1 p.2).rxTimeouts = [] :=
    rxInv_clear p.1 p.2 h
  have h2 := rxInv_register ((p.1.reconnect conn tx rx).1)
    (clear_rx_heartbeat_timeout p.1 p.2) h1
  exact rxInv_reset _ _ h2

/-- The start of listen establishes the invariant. -/
theorem rxInv_listenStart {R : Type} (s : Session R) : RxInv (listenStart s) := by
  unfold listenStart
  apply rxInv_register
  unfold register_tx_heartbeat_timeout EventLoopState.empty
  split <;> rfl

/-- Every reactor step preserves the invariant. -/
theorem rxInv_step {R : Type} (p q : Session R × EventLoopState)
    (hstep : RxStep p q) (h : RxInv p) : RxInv q := by
  cases hstep with
  | inboundHeartbeat => exact rxInv_reset p.1 p.2 h
  | inboundFrame => exact rxInv_reset p.1 p.2 h
  | rxTimerFires t ht => exact rxInv_fire p.1 p.2 t h
  | reconnectSuccess conn tx rx => exact rxInv_reconnect p conn tx rx h

/-- Every reachable state satisfies the invariant. -/
theorem rxInv_reachable {R : Type} (p : Session R × EventLoopState)
    (h : RxReachable p) : RxInv p := by
  obtain ⟨s0, hpath⟩ := h
  induction hpath with
  | refl => exact rxInv_listenStart s0
  | tail hsteps hstep ih => exact rxInv_step _ _ hstep ih

/-- Claim C9: in every reachable state at most one receive-watchdog
timeout is pending; the reset path registers only after clearing the
previously stored handle; and after processing an inbound transmission
(which resets the watchdog) the pending count is exactly one when the rx
interval is positive and zero when it is zero. -/
theorem rx_watchdog_at_most_one (R : Type) (p : Session R × EventLoopState)
    (h : RxReachable p) :
    p.2.rxTimeouts.length ≤ 1 ∧
    (reset_rx_heartbeat_timeout p.1 p.2
       = register_rx_heartbeat_timeout p.1 (clear_rx_heartbeat_timeout p.1 p.2)) ∧
    ((reset_rx_heartbeat_timeout p.1 p.2).2.rxTimeouts).length
       = if p.1.rxHeartbeatMs = 0 then 0 else 1 := by
  have hi := rxInv_reachable p h
  refine ⟨?_, rfl, rxInv_reset_length p.1 p.2 hi⟩
  rcases hi with h0 | ⟨tp, hl, _⟩
  · simp [h0]
  · simp [hl]

/-- Witness for C9 at the state right after listen starts on a concrete
session with positive intervals: one pending watchdog timeout, and a
reset keeps the count at one. -/
theorem rx_watchdog_at_most_one_witness :
    (listenStart wS9).2.rxTimeouts.length ≤ 1 ∧
    ((reset_rx_heartbeat_timeout (listenStart wS9).1
        (listenStart wS9).2).2.rxTimeouts).length
      = if (listenStart wS9).1.rxHeartbeatMs = 0 then 0 else 1 :=
  ⟨(rx_watchdog_at_most_one Unit (listenStart wS9)
      ⟨wS9, Relation.ReflTransGen.refl⟩).1,
   (rx_watchdog_at_most_one Unit (listenStart wS9)
      ⟨wS9, Relation.ReflTransGen.refl⟩).2.2⟩

end Stomp
